import Mathlib

/-!
Shallow embedding of gbm-rs (src/lib.rs), a Rust wrapper around the native
libgbm generic buffer manager.

Native handles (`*const gbm_device`, `*const gbm_surface`, `*const gbm_bo`)
are modelled as natural numbers, with `0` playing the role of the C null
pointer.  The libgbm implementation itself is not part of the repository
(the Rust file only declares its entry points in an FFI block), so it is
modelled as a deterministic oracle `NativeOracle` giving the return value
of every native function.  Every wrapper operation returns, next to its
Rust-level result, the list of native calls it issues, so that ownership
and disposal claims can be stated as properties of call traces; `Drop`
implementations are embedded as functions producing the trace emitted at
disposal time.
-/

namespace GbmRs

/-- Opaque native handles; `0` is the null pointer. -/
abbrev Handle := Nat

/-- One call into the native libgbm layer, named after the C function the
Rust FFI block declares.  Destroy and release entry points return `void`,
so they appear only in traces, not in the oracle. -/
inductive NativeCall where
  | gbm_create_device (fd : Int)
  | gbm_device_get_fd (gbm : Handle)
  | gbm_device_is_format_supported (gbm : Handle) (format usage : Nat)
  | gbm_device_destroy (gbm : Handle)
  | gbm_bo_create (gbm : Handle) (width height format flags : Nat)
  | gbm_bo_get_width (bo : Handle)
  | gbm_bo_get_height (bo : Handle)
  | gbm_bo_get_stride (bo : Handle)
  | gbm_bo_get_format (bo : Handle)
  | gbm_bo_get_device (bo : Handle)
  | gbm_bo_get_handle (bo : Handle)
  | gbm_bo_get_fd (bo : Handle)
  | gbm_bo_write (bo : Handle) (buf : Handle) (count : Nat)
  | gbm_bo_destroy (bo : Handle)
  | gbm_surface_create (gbm : Handle) (width height format flags : Nat)
  | gbm_surface_lock_front_buffer (surface : Handle)
  | gbm_surface_release_buffer (surface : Handle) (bo : Handle)
  | gbm_surface_has_free_buffers (surface : Handle)
  | gbm_surface_destroy (surface : Handle)
  deriving DecidableEq

/-- Modelled from the spec: the native libgbm layer (external to this
repository, reachable only through the FFI declarations at the bottom of
src/lib.rs) as a deterministic oracle, one field per value-returning native
entry point, in the order: create_device, device_get_fd,
device_is_format_supported, bo_create, bo_get_width, bo_get_height,
bo_get_stride, bo_get_format, bo_get_device, bo_get_handle, bo_get_fd,
bo_write, surface_create, surface_lock_front_buffer,
surface_has_free_buffers.  C integer types are modelled as `Int` (c_int)
and `Nat` (unsigned); the `uint64_t` handle value is reduced modulo 2^64
at the call site. -/
structure NativeOracle where
  gbm_create_device : Int → Handle
  gbm_device_get_fd : Handle → Int
  gbm_device_is_format_supported : Handle → Nat → Nat → Int
  gbm_bo_create : Handle → Nat → Nat → Nat → Nat → Handle
  gbm_bo_get_width : Handle → Nat
  gbm_bo_get_height : Handle → Nat
  gbm_bo_get_stride : Handle → Nat
  gbm_bo_get_format : Handle → Nat
  gbm_bo_get_device : Handle → Handle
  gbm_bo_get_handle : Handle → Nat
  gbm_bo_get_fd : Handle → Int
  gbm_bo_write : Handle → Handle → Nat → Int
  gbm_surface_create : Handle → Nat → Nat → Nat → Nat → Handle
  gbm_surface_lock_front_buffer : Handle → Handle
  gbm_surface_has_free_buffers : Handle → Int

/-- `pub struct Device { ptr: *const gbm_device }` -/
structure Device where
  ptr : Handle
  deriving DecidableEq

/-- `pub struct Surface { ptr: *const gbm_surface }` -/
structure Surface where
  ptr : Handle
  deriving DecidableEq

/-- `pub struct BufferObject { ptr: *const gbm_bo, manual: bool }`.
The `manual` discriminant records provenance: `true` for buffers from
`gbm_bo_create`, `false` for buffers from `gbm_surface_lock_front_buffer`. -/
structure BufferObject where
  ptr : Handle
  manual : Bool
  deriving DecidableEq

/-- `Device::from_fd`: calls `gbm_create_device(fd)`, returns `None` on a
null handle, otherwise wraps the handle. -/
def Device.from_fd (o : NativeOracle) (fd : Int) : Option Device × List NativeCall :=
  (if o.gbm_create_device fd = 0 then none else some ⟨o.gbm_create_device fd⟩,
   [NativeCall.gbm_create_device fd])

/-- `Device::is_format_supported`: `gbm_device_is_format_supported(..) != 0`. -/
def Device.is_format_supported (o : NativeOracle) (d : Device) (format usage : Nat) :
    Bool × List NativeCall :=
  (decide (o.gbm_device_is_format_supported d.ptr format usage ≠ 0),
   [NativeCall.gbm_device_is_format_supported d.ptr format usage])

/-- `Device::fd`: delegates to `gbm_device_get_fd(self.ptr)`. -/
def Device.fd (o : NativeOracle) (d : Device) : Int × List NativeCall :=
  (o.gbm_device_get_fd d.ptr, [NativeCall.gbm_device_get_fd d.ptr])

/-- `Device::c_struct`: returns the raw stored pointer. -/
def Device.c_struct (d : Device) : Handle := d.ptr

/-- `impl Drop for Device`: unconditionally calls `gbm_device_destroy(self.ptr)`. -/
def Device.drop (d : Device) : List NativeCall :=
  [NativeCall.gbm_device_destroy d.ptr]

/-- `Surface::new`: calls `gbm_surface_create`, `None` on null. -/
def Surface.new (o : NativeOracle) (dev : Device) (width height format flags : Nat) :
    Option Surface × List NativeCall :=
  (if o.gbm_surface_create dev.ptr width height format flags = 0 then none
   else some ⟨o.gbm_surface_create dev.ptr width height format flags⟩,
   [NativeCall.gbm_surface_create dev.ptr width height format flags])

/-- `Surface::has_free_buffers`: `gbm_surface_has_free_buffers(..) != 0`. -/
def Surface.has_free_buffers (o : NativeOracle) (s : Surface) : Bool × List NativeCall :=
  (decide (o.gbm_surface_has_free_buffers s.ptr ≠ 0),
   [NativeCall.gbm_surface_has_free_buffers s.ptr])

/-- `Surface::lock_front_buffer`: calls `gbm_surface_lock_front_buffer`,
`None` on null, otherwise wraps the handle with `manual: false`. -/
def Surface.lock_front_buffer (o : NativeOracle) (s : Surface) :
    Option BufferObject × List NativeCall :=
  (if o.gbm_surface_lock_front_buffer s.ptr = 0 then none
   else some ⟨o.gbm_surface_lock_front_buffer s.ptr, false⟩,
   [NativeCall.gbm_surface_lock_front_buffer s.ptr])

/-- `Surface::c_struct`: returns the raw stored pointer. -/
def Surface.c_struct (s : Surface) : Handle := s.ptr

/-- `impl Drop for Surface`: calls `gbm_surface_destroy(self.ptr)`. -/
def Surface.drop (s : Surface) : List NativeCall :=
  [NativeCall.gbm_surface_destroy s.ptr]

/-- `impl Drop for BufferObject`: calls `gbm_bo_destroy(self.ptr)` if and
only if `self.manual` holds. -/
def BufferObject.drop (bo : BufferObject) : List NativeCall :=
  if bo.manual then [NativeCall.gbm_bo_destroy bo.ptr] else []

/-- `Surface::release_buffer(&self, bo: BufferObject)`: calls
`gbm_surface_release_buffer(self.ptr, bo.ptr)`; the by-value argument `bo`
is consumed and its `Drop` runs at the end of the call body, so its drop
trace follows the release call. -/
def Surface.release_buffer (s : Surface) (bo : BufferObject) : List NativeCall :=
  NativeCall.gbm_surface_release_buffer s.ptr bo.ptr :: BufferObject.drop bo

/-- `BufferObject::new`: calls `gbm_bo_create`, `None` on null, otherwise
wraps the handle with `manual: true`. -/
def BufferObject.new (o : NativeOracle) (dev : Device) (width height format flags : Nat) :
    Option BufferObject × List NativeCall :=
  (if o.gbm_bo_create dev.ptr width height format flags = 0 then none
   else some ⟨o.gbm_bo_create dev.ptr width height format flags, true⟩,
   [NativeCall.gbm_bo_create dev.ptr width height format flags])

/-- `BufferObject::width`. -/
def BufferObject.width (o : NativeOracle) (bo : BufferObject) : Nat × List NativeCall :=
  (o.gbm_bo_get_width bo.ptr, [NativeCall.gbm_bo_get_width bo.ptr])

/-- `BufferObject::height`. -/
def BufferObject.height (o : NativeOracle) (bo : BufferObject) : Nat × List NativeCall :=
  (o.gbm_bo_get_height bo.ptr, [NativeCall.gbm_bo_get_height bo.ptr])

/-- `BufferObject::stride`. -/
def BufferObject.stride (o : NativeOracle) (bo : BufferObject) : Nat × List NativeCall :=
  (o.gbm_bo_get_stride bo.ptr, [NativeCall.gbm_bo_get_stride bo.ptr])

/-- `BufferObject::format`. -/
def BufferObject.format (o : NativeOracle) (bo : BufferObject) : Nat × List NativeCall :=
  (o.gbm_bo_get_format bo.ptr, [NativeCall.gbm_bo_get_format bo.ptr])

/-- `BufferObject::device`: builds a fresh `Device` value (the owning
wrapper type whose `Drop` destroys) around `gbm_bo_get_device(self.ptr)`. -/
def BufferObject.device (o : NativeOracle) (bo : BufferObject) : Device × List NativeCall :=
  (⟨o.gbm_bo_get_device bo.ptr⟩, [NativeCall.gbm_bo_get_device bo.ptr])

/-- Rust cast `u64 as u32`: keep the low 32 bits. -/
def u64_as_u32 (h : Nat) : Nat := h % 2 ^ 32

/-- Rust cast `u64 as i32`: keep the low 32 bits and reinterpret them as a
two's-complement signed 32-bit value. -/
def u64_as_i32 (h : Nat) : Int :=
  if h % 2 ^ 32 < 2 ^ 31 then ((h % 2 ^ 32 : Nat) : Int)
  else ((h % 2 ^ 32 : Nat) : Int) - 2 ^ 32

/-- Rust cast `u64 as i64`: reinterpret the 64-bit pattern as a
two's-complement signed 64-bit value. -/
def u64_as_i64 (h : Nat) : Int :=
  if h % 2 ^ 64 < 2 ^ 63 then ((h % 2 ^ 64 : Nat) : Int)
  else ((h % 2 ^ 64 : Nat) : Int) - 2 ^ 64

/-- Rust cast `u64 as *const c_void` on a 64-bit platform: the same bit
pattern read as an address. -/
def u64_as_ptr (h : Nat) : Nat := h % 2 ^ 64

/-- `BufferObject::handle_u64`: `gbm_bo_get_handle(self.ptr)`; the native
return type is `uint64_t`, modelled by reducing modulo 2^64. -/
def BufferObject.handle_u64 (o : NativeOracle) (bo : BufferObject) : Nat × List NativeCall :=
  (o.gbm_bo_get_handle bo.ptr % 2 ^ 64, [NativeCall.gbm_bo_get_handle bo.ptr])

/-- `BufferObject::handle_u32`: `gbm_bo_get_handle(self.ptr) as u32`. -/
def BufferObject.handle_u32 (o : NativeOracle) (bo : BufferObject) : Nat × List NativeCall :=
  (u64_as_u32 (o.gbm_bo_get_handle bo.ptr % 2 ^ 64), [NativeCall.gbm_bo_get_handle bo.ptr])

/-- `BufferObject::handle_i32`: `gbm_bo_get_handle(self.ptr) as i32`. -/
def BufferObject.handle_i32 (o : NativeOracle) (bo : BufferObject) : Int × List NativeCall :=
  (u64_as_i32 (o.gbm_bo_get_handle bo.ptr % 2 ^ 64), [NativeCall.gbm_bo_get_handle bo.ptr])

/-- `BufferObject::handle_i64`: `gbm_bo_get_handle(self.ptr) as i64`. -/
def BufferObject.handle_i64 (o : NativeOracle) (bo : BufferObject) : Int × List NativeCall :=
  (u64_as_i64 (o.gbm_bo_get_handle bo.ptr % 2 ^ 64), [NativeCall.gbm_bo_get_handle bo.ptr])

/-- `BufferObject::handle_ptr`: `gbm_bo_get_handle(self.ptr) as *const c_void`. -/
def BufferObject.handle_ptr (o : NativeOracle) (bo : BufferObject) : Nat × List NativeCall :=
  (u64_as_ptr (o.gbm_bo_get_handle bo.ptr % 2 ^ 64), [NativeCall.gbm_bo_get_handle bo.ptr])

/-- `BufferObject::fd`: `gbm_bo_get_fd(self.ptr)`. -/
def BufferObject.fd (o : NativeOracle) (bo : BufferObject) : Int × List NativeCall :=
  (o.gbm_bo_get_fd bo.ptr, [NativeCall.gbm_bo_get_fd bo.ptr])

/-- `BufferObject::write(&self, buf, count)`: `gbm_bo_write(self.ptr, buf, count) == 0`.
The caller-supplied data pointer is modelled as an address. -/
def BufferObject.write (o : NativeOracle) (bo : BufferObject) (buf : Handle) (count : Nat) :
    Bool × List NativeCall :=
  (decide (o.gbm_bo_write bo.ptr buf count = 0), [NativeCall.gbm_bo_write bo.ptr buf count])

/-- `BufferObject::c_struct`: returns the raw stored pointer. -/
def BufferObject.c_struct (bo : BufferObject) : Handle := bo.ptr

/-- Number of `gbm_bo_destroy` calls in a trace. -/
def countBoDestroy (t : List NativeCall) : Nat :=
  t.countP fun c => match c with
    | NativeCall.gbm_bo_destroy _ => true
    | _ => false

/-- Number of `gbm_bo_destroy` calls in a trace targeting handle `h`. -/
def countBoDestroyOn (t : List NativeCall) (h : Handle) : Nat :=
  t.countP fun c => match c with
    | NativeCall.gbm_bo_destroy b => b == h
    | _ => false

/-- Number of `gbm_device_destroy` calls in a trace targeting handle `h`. -/
def countDeviceDestroyOn (t : List NativeCall) (h : Handle) : Nat :=
  t.countP fun c => match c with
    | NativeCall.gbm_device_destroy g => g == h
    | _ => false

/-- Modelled from the spec: the native-library contract (missing from the
repository, which only declares the entry points) that
`gbm_device_get_fd` returns the descriptor the device was created with:
spec 4.2 "returns the file descriptor used at construction, exactly as
passed in". -/
def FdRoundTrip (o : NativeOracle) : Prop :=
  ∀ fd : Int, o.gbm_create_device fd ≠ 0 →
    o.gbm_device_get_fd (o.gbm_create_device fd) = fd

/-- A concrete oracle used to instantiate hypothetical theorems: device
handle 1, surface handle 3, locked front buffer handle 9, created buffer
handle 42, fd 7, 64-bit buffer handle value 77. -/
def testOracle : NativeOracle :=
  ⟨fun _ => 1, fun _ => 7, fun _ _ _ => 1, fun _ _ _ _ _ => 42,
   fun _ => 1920, fun _ => 1080, fun _ => 7680, fun _ => 0,
   fun _ => 1, fun _ => 77, fun _ => 33, fun _ _ _ => 0,
   fun _ _ _ _ _ => 3, fun _ => 9, fun _ => 1⟩

/-- A concrete oracle satisfying `FdRoundTrip`: device creation encodes the
descriptor into the handle (failing on negative descriptors) and the
descriptor query decodes it. -/
def fdOracle : NativeOracle :=
  ⟨fun fd => if fd < 0 then 0 else fd.toNat + 1, fun h => (h : Int) - 1,
   fun _ _ _ => 1, fun _ _ _ _ _ => 42,
   fun _ => 1920, fun _ => 1080, fun _ => 7680, fun _ => 0,
   fun _ => 1, fun _ => 77, fun _ => 33, fun _ _ _ => 0,
   fun _ _ _ _ _ => 3, fun _ => 9, fun _ => 1⟩

theorem fdOracle_contract : FdRoundTrip fdOracle := by
  intro fd h
  by_cases hneg : fd < 0
  · simp [fdOracle, hneg] at h
  · simp [fdOracle, hneg]
    omega

/-- A concrete oracle on which every native allocation fails (returns the
null handle). -/
def nullOracle : NativeOracle :=
  ⟨fun _ => 0, fun _ => -1, fun _ _ _ => 0, fun _ _ _ _ _ => 0,
   fun _ => 0, fun _ => 0, fun _ => 0, fun _ => 0,
   fun _ => 0, fun _ => 0, fun _ => -1, fun _ _ _ => 1,
   fun _ _ _ _ _ => 0, fun _ => 0, fun _ => 0⟩

/-- A concrete oracle reporting different buffer geometry than `testOracle`
(width 4, height 2, stride 13, format 5) but the same native write result. -/
def oracleB : NativeOracle :=
  ⟨fun _ => 1, fun _ => 7, fun _ _ _ => 1, fun _ _ _ _ _ => 42,
   fun _ => 4, fun _ => 2, fun _ => 13, fun _ => 5,
   fun _ => 1, fun _ => 77, fun _ => 33, fun _ _ _ => 0,
   fun _ _ _ _ _ => 3, fun _ => 9, fun _ => 1⟩

/-- Inversion for `Device.from_fd`: a successful construction means the
native handle was non-null and is the one stored. -/
theorem from_fd_shape (o : NativeOracle) (fd : Int) (d : Device)
    (hd : (Device.from_fd o fd).1 = some d) :
    o.gbm_create_device fd ≠ 0 ∧ d = ⟨o.gbm_create_device fd⟩ := by
  by_cases h1 : o.gbm_create_device fd = 0
  · simp [Device.from_fd, h1] at hd
  · simp [Device.from_fd, h1] at hd
    exact ⟨h1, hd.symm⟩

/-- Inversion for `Surface.new`. -/
theorem surface_new_shape (o : NativeOracle) (dev : Device) (w h f u : Nat) (s : Surface)
    (hs : (Surface.new o dev w h f u).1 = some s) :
    o.gbm_surface_create dev.ptr w h f u ≠ 0 ∧ s = ⟨o.gbm_surface_create dev.ptr w h f u⟩ := by
  by_cases h1 : o.gbm_surface_create dev.ptr w h f u = 0
  · simp [Surface.new, h1] at hs
  · simp [Surface.new, h1] at hs
    exact ⟨h1, hs.symm⟩

/-- Inversion for `BufferObject.new`: the stored handle is the native one and
the provenance discriminant `manual` is `true`. -/
theorem bo_new_shape (o : NativeOracle) (dev : Device) (w h f u : Nat) (bo : BufferObject)
    (hb : (BufferObject.new o dev w h f u).1 = some bo) :
    o.gbm_bo_create dev.ptr w h f u ≠ 0 ∧ bo = ⟨o.gbm_bo_create dev.ptr w h f u, true⟩ := by
  by_cases h1 : o.gbm_bo_create dev.ptr w h f u = 0
  · simp [BufferObject.new, h1] at hb
  · simp [BufferObject.new, h1] at hb
    exact ⟨h1, hb.symm⟩

/-- Inversion for `Surface.lock_front_buffer`: the stored handle is the
native one and the provenance discriminant `manual` is `false`. -/
theorem lock_shape (o : NativeOracle) (s : Surface) (bo : BufferObject)
    (hb : (Surface.lock_front_buffer o s).1 = some bo) :
    o.gbm_surface_lock_front_buffer s.ptr ≠ 0 ∧
      bo = ⟨o.gbm_surface_lock_front_buffer s.ptr, false⟩ := by
  by_cases h1 : o.gbm_surface_lock_front_buffer s.ptr = 0
  · simp [Surface.lock_front_buffer, h1] at hb
  · simp [Surface.lock_front_buffer, h1] at hb
    exact ⟨h1, hb.symm⟩

/-- C1: a BufferObject created by BufferObject::new carries the discriminant
manual = true and its disposal issues exactly one native gbm_bo_destroy call,
on its own handle; a BufferObject obtained from Surface::lock_front_buffer
carries manual = false and its disposal issues zero native destroy calls. -/
theorem c1_disposal_destroy_count (o : NativeOracle) (d : Device) (s : Surface)
    (w h f u : Nat) (bown bbor : BufferObject)
    (hown : (BufferObject.new o d w h f u).1 = some bown)
    (hbor : (Surface.lock_front_buffer o s).1 = some bbor) :
    bown.manual = true ∧
    BufferObject.drop bown = [NativeCall.gbm_bo_destroy bown.ptr] ∧
    countBoDestroyOn (BufferObject.drop bown) bown.ptr = 1 ∧
    bbor.manual = false ∧
    BufferObject.drop bbor = [] ∧
    countBoDestroy (BufferObject.drop bbor) = 0 := by
  obtain ⟨-, rfl⟩ := bo_new_shape o d w h f u bown hown
  obtain ⟨-, rfl⟩ := lock_shape o s bbor hbor
  refine ⟨rfl, rfl, ?_, rfl, rfl, rfl⟩
  simp [BufferObject.drop, countBoDestroyOn]

/-- C1 witness: disposal traces at the concrete handles produced by
`testOracle` (owned handle 42, borrowed handle 9). -/
theorem c1_witness :
    (⟨42, true⟩ : BufferObject).manual = true ∧
    BufferObject.drop ⟨42, true⟩ = [NativeCall.gbm_bo_destroy 42] ∧
    countBoDestroyOn (BufferObject.drop ⟨42, true⟩) 42 = 1 ∧
    (⟨9, false⟩ : BufferObject).manual = false ∧
    BufferObject.drop ⟨9, false⟩ = [] ∧
    countBoDestroy (BufferObject.drop ⟨9, false⟩) = 0 :=
  c1_disposal_destroy_count testOracle ⟨1⟩ ⟨3⟩ 1920 1080 0 0 ⟨42, true⟩ ⟨9, false⟩
    (by decide) (by decide)

/-- C2: each allocation-shaped operation (Device::from_fd, Surface::new,
BufferObject::new, Surface::lock_front_buffer) returns none exactly when the
native call yields the null handle, and any returned wrapper stores exactly
that native handle; the Option result carries no error payload. -/
theorem c2_alloc_none_iff_null (o : NativeOracle) (fd : Int) (d : Device) (s : Surface)
    (w h f u : Nat) :
    ((Device.from_fd o fd).1 = none ↔ o.gbm_create_device fd = 0) ∧
    (∀ x : Device, (Device.from_fd o fd).1 = some x → x.ptr = o.gbm_create_device fd) ∧
    ((Surface.new o d w h f u).1 = none ↔ o.gbm_surface_create d.ptr w h f u = 0) ∧
    (∀ x : Surface, (Surface.new o d w h f u).1 = some x →
      x.ptr = o.gbm_surface_create d.ptr w h f u) ∧
    ((BufferObject.new o d w h f u).1 = none ↔ o.gbm_bo_create d.ptr w h f u = 0) ∧
    (∀ x : BufferObject, (BufferObject.new o d w h f u).1 = some x →
      x.ptr = o.gbm_bo_create d.ptr w h f u) ∧
    ((Surface.lock_front_buffer o s).1 = none ↔ o.gbm_surface_lock_front_buffer s.ptr = 0) ∧
    (∀ x : BufferObject, (Surface.lock_front_buffer o s).1 = some x →
      x.ptr = o.gbm_surface_lock_front_buffer s.ptr) := by
  refine ⟨?_, ?_, ?_, ?_, ?_, ?_, ?_, ?_⟩
  · by_cases h1 : o.gbm_create_device fd = 0 <;> simp [Device.from_fd, h1]
  · intro x hx
    obtain ⟨-, rfl⟩ := from_fd_shape o fd x hx
    rfl
  · by_cases h1 : o.gbm_surface_create d.ptr w h f u = 0 <;> simp [Surface.new, h1]
  · intro x hx
    obtain ⟨-, rfl⟩ := surface_new_shape o d w h f u x hx
    rfl
  · by_cases h1 : o.gbm_bo_create d.ptr w h f u = 0 <;> simp [BufferObject.new, h1]
  · intro x hx
    obtain ⟨-, rfl⟩ := bo_new_shape o d w h f u x hx
    rfl
  · by_cases h1 : o.gbm_surface_lock_front_buffer s.ptr = 0 <;>
      simp [Surface.lock_front_buffer, h1]
  · intro x hx
    obtain ⟨-, rfl⟩ := lock_shape o s x hx
    rfl

/-- C2 witness: on `nullOracle` every allocation-shaped operation returns
none; on `testOracle` the returned wrappers hold the native handles. -/
theorem c2_witness :
    (Device.from_fd nullOracle 7).1 = none ∧
    (⟨1⟩ : Device).ptr = testOracle.gbm_create_device 7 ∧
    (Surface.new nullOracle ⟨1⟩ 1920 1080 0 0).1 = none ∧
    (⟨3⟩ : Surface).ptr = testOracle.gbm_surface_create 1 1920 1080 0 0 ∧
    (BufferObject.new nullOracle ⟨1⟩ 1920 1080 0 0).1 = none ∧
    (⟨42, true⟩ : BufferObject).ptr = testOracle.gbm_bo_create 1 1920 1080 0 0 ∧
    (Surface.lock_front_buffer nullOracle ⟨3⟩).1 = none ∧
    (⟨9, false⟩ : BufferObject).ptr = testOracle.gbm_surface_lock_front_buffer 3 :=
  ⟨(c2_alloc_none_iff_null nullOracle 7 ⟨1⟩ ⟨3⟩ 1920 1080 0 0).1.mpr rfl,
   (c2_alloc_none_iff_null testOracle 7 ⟨1⟩ ⟨3⟩ 1920 1080 0 0).2.1 ⟨1⟩ (by decide),
   (c2_alloc_none_iff_null nullOracle 7 ⟨1⟩ ⟨3⟩ 1920 1080 0 0).2.2.1.mpr rfl,
   (c2_alloc_none_iff_null testOracle 7 ⟨1⟩ ⟨3⟩ 1920 1080 0 0).2.2.2.1 ⟨3⟩ (by decide),
   (c2_alloc_none_iff_null nullOracle 7 ⟨1⟩ ⟨3⟩ 1920 1080 0 0).2.2.2.2.1.mpr rfl,
   (c2_alloc_none_iff_null testOracle 7 ⟨1⟩ ⟨3⟩ 1920 1080 0 0).2.2.2.2.2.1 ⟨42, true⟩
     (by decide),
   (c2_alloc_none_iff_null nullOracle 7 ⟨1⟩ ⟨3⟩ 1920 1080 0 0).2.2.2.2.2.2.1.mpr rfl,
   (c2_alloc_none_iff_null testOracle 7 ⟨1⟩ ⟨3⟩ 1920 1080 0 0).2.2.2.2.2.2.2 ⟨9, false⟩
     (by decide)⟩

/-- C3: releasing a BufferObject of borrowed provenance (obtained from
Surface::lock_front_buffer, so manual = false) issues exactly the native
gbm_surface_release_buffer call on the surface and buffer handles and zero
gbm_bo_destroy calls; the by-value argument is consumed by the call, its
drop (folded into the call trace) contributing nothing. -/
theorem c3_release_borrowed_no_destroy (o : NativeOracle) (s ls : Surface) (bo : BufferObject)
    (hbo : (Surface.lock_front_buffer o ls).1 = some bo) :
    Surface.release_buffer s bo = [NativeCall.gbm_surface_release_buffer s.ptr bo.ptr] ∧
    countBoDestroy (Surface.release_buffer s bo) = 0 := by
  obtain ⟨-, rfl⟩ := lock_shape o ls bo hbo
  refine ⟨rfl, ?_⟩
  simp [Surface.release_buffer, BufferObject.drop, countBoDestroy]

/-- C3 witness: releasing the borrowed buffer with handle 9 back to the
surface with handle 3 issues only the native release call. -/
theorem c3_witness :
    Surface.release_buffer ⟨3⟩ ⟨9, false⟩
      = [NativeCall.gbm_surface_release_buffer 3 9] ∧
    countBoDestroy (Surface.release_buffer ⟨3⟩ ⟨9, false⟩) = 0 :=
  c3_release_borrowed_no_destroy testOracle ⟨3⟩ ⟨3⟩ ⟨9, false⟩ (by decide)

/-- C4: under the native contract that gbm_device_get_fd returns the
descriptor the device was created with, every successful Device::from_fd
yields a Device whose fd() accessor returns exactly the input descriptor;
construction issues only the single gbm_create_device call and fd() only the
single gbm_device_get_fd call, so the descriptor is never reopened or
duplicated. -/
theorem c4_fd_round_trip (o : NativeOracle) (ho : FdRoundTrip o) (fd : Int) (d : Device)
    (hd : (Device.from_fd o fd).1 = some d) :
    (Device.fd o d).1 = fd ∧
    (Device.from_fd o fd).2 = [NativeCall.gbm_create_device fd] ∧
    (Device.fd o d).2 = [NativeCall.gbm_device_get_fd d.ptr] := by
  obtain ⟨hne, rfl⟩ := from_fd_shape o fd d hd
  exact ⟨ho fd hne, rfl, rfl⟩

/-- C4 witness: on `fdOracle` (which satisfies the native fd contract),
constructing from descriptor 7 yields the device with handle 8 whose fd()
returns 7. -/
theorem c4_witness :
    (Device.fd fdOracle ⟨8⟩).1 = 7 ∧
    (Device.from_fd fdOracle 7).2 = [NativeCall.gbm_create_device 7] ∧
    (Device.fd fdOracle ⟨8⟩).2 = [NativeCall.gbm_device_get_fd 8] :=
  c4_fd_round_trip fdOracle fdOracle_contract 7 ⟨8⟩ (by decide)

/-- C5: BufferObject::device builds a second Device value (the owning
wrapper type) around the very handle the original Device owns (assuming the
native contract that gbm_bo_get_device returns the creating device's
handle); since Device disposal unconditionally issues gbm_device_destroy,
disposing both wrappers issues two native destroy calls on one handle — the
latent double-free hazard. -/
theorem c5_device_accessor_double_free (o : NativeOracle) (d : Device) (bo : BufferObject)
    (hdev : o.gbm_bo_get_device bo.ptr = d.ptr) :
    (BufferObject.device o bo).1 = d ∧
    Device.drop d = [NativeCall.gbm_device_destroy d.ptr] ∧
    countDeviceDestroyOn
      (Device.drop d ++ Device.drop (BufferObject.device o bo).1) d.ptr = 2 := by
  have h1 : (BufferObject.device o bo).1 = d := by
    simp [BufferObject.device, hdev]
  refine ⟨h1, rfl, ?_⟩
  rw [h1]
  simp [Device.drop, countDeviceDestroyOn]

/-- C5 witness: on `testOracle` the buffer with handle 42 reports device
handle 1, and dropping both the original device wrapper and the one
manufactured by the accessor issues two destroy calls on handle 1. -/
theorem c5_witness :
    (BufferObject.device testOracle ⟨42, true⟩).1 = ⟨1⟩ ∧
    Device.drop ⟨1⟩ = [NativeCall.gbm_device_destroy 1] ∧
    countDeviceDestroyOn
      (Device.drop ⟨1⟩ ++ Device.drop (BufferObject.device testOracle ⟨42, true⟩).1) 1 = 2 :=
  c5_device_accessor_double_free testOracle ⟨1⟩ ⟨42, true⟩ (by decide)

/-- C6: Device::is_format_supported is a total query: for every format and
usage value (in particular every 32-bit pair) it returns the boolean "the
native query result is nonzero", and its native trace is exactly the single
query call — it performs no allocation and no destroy. -/
theorem c6_is_format_supported_total (o : NativeOracle) (d : Device) (format usage : Nat) :
    ((Device.is_format_supported o d format usage).1 = true ↔
      o.gbm_device_is_format_supported d.ptr format usage ≠ 0) ∧
    (Device.is_format_supported o d format usage).2
      = [NativeCall.gbm_device_is_format_supported d.ptr format usage] ∧
    countBoDestroy (Device.is_format_supported o d format usage).2 = 0 ∧
    countDeviceDestroyOn (Device.is_format_supported o d format usage).2 d.ptr = 0 := by
  refine ⟨?_, rfl, ?_, ?_⟩
  · simp [Device.is_format_supported]
  · simp [Device.is_format_supported, countBoDestroy]
  · simp [Device.is_format_supported, countDeviceDestroyOn]

/-- C7: the five handle accessors reinterpret one 64-bit native value: the
u32 variant is its low 32 bits, the i32 variant the two's-complement reading
of those low 32 bits, the i64 variant the two's-complement reading of the
whole 64-bit pattern, and the pointer variant the same 64-bit pattern as an
address; they are not independent fields. -/
theorem c7_handle_accessors_agree (o : NativeOracle) (bo : BufferObject) :
    (BufferObject.handle_u32 o bo).1 = (BufferObject.handle_u64 o bo).1 % 2 ^ 32 ∧
    (BufferObject.handle_i32 o bo).1 = u64_as_i32 (BufferObject.handle_u64 o bo).1 ∧
    (BufferObject.handle_i64 o bo).1 = u64_as_i64 (BufferObject.handle_u64 o bo).1 ∧
    (BufferObject.handle_ptr o bo).1 = (BufferObject.handle_u64 o bo).1 ∧
    (BufferObject.handle_i32 o bo).1 =
      (if (BufferObject.handle_u32 o bo).1 < 2 ^ 31
       then ((BufferObject.handle_u32 o bo).1 : Int)
       else ((BufferObject.handle_u32 o bo).1 : Int) - 2 ^ 32) := by
  refine ⟨rfl, rfl, rfl, ?_, rfl⟩
  simp only [BufferObject.handle_ptr, BufferObject.handle_u64, u64_as_ptr]
  exact Nat.mod_mod_of_dvd _ dvd_rfl

/-- C8: BufferObject::write returns true exactly when the native
gbm_bo_write call returns 0; its trace is the single native write call; and
the result is unchanged under any oracle reporting different buffer
geometry but the same native write behaviour — the wrapper consults no
width, height, stride or format. -/
theorem c8_write_result (o oc : NativeOracle) (bo : BufferObject) (buf : Handle) (count : Nat)
    (hagree : oc.gbm_bo_write = o.gbm_bo_write) :
    ((BufferObject.write o bo buf count).1 = true ↔ o.gbm_bo_write bo.ptr buf count = 0) ∧
    (BufferObject.write o bo buf count).2 = [NativeCall.gbm_bo_write bo.ptr buf count] ∧
    (BufferObject.write oc bo buf count).1 = (BufferObject.write o bo buf count).1 := by
  refine ⟨?_, rfl, ?_⟩
  · simp [BufferObject.write]
  · simp [BufferObject.write, hagree]

/-- C8 witness: writing stride times height bytes on `testOracle` succeeds,
and `oracleB` (different geometry, same native write) gives the same
result. -/
theorem c8_witness :
    ((BufferObject.write testOracle ⟨42, true⟩ 100 8294400).1 = true ↔
      testOracle.gbm_bo_write 42 100 8294400 = 0) ∧
    (BufferObject.write testOracle ⟨42, true⟩ 100 8294400).2
      = [NativeCall.gbm_bo_write 42 100 8294400] ∧
    (BufferObject.write oracleB ⟨42, true⟩ 100 8294400).1
      = (BufferObject.write testOracle ⟨42, true⟩ 100 8294400).1 :=
  c8_write_result testOracle oracleB ⟨42, true⟩ 100 8294400 rfl

/-- C9: passing an owned-provenance BufferObject (from BufferObject::new,
manual = true) to Surface::release_buffer issues the native release call
followed by a gbm_bo_destroy on the same handle: the consumed argument is
dropped at the end of the call and its Drop destroys. -/
theorem c9_release_owned_destroys (o : NativeOracle) (d : Device) (s : Surface)
    (w h f u : Nat) (bo : BufferObject)
    (hbo : (BufferObject.new o d w h f u).1 = some bo) :
    Surface.release_buffer s bo =
      [NativeCall.gbm_surface_release_buffer s.ptr bo.ptr,
       NativeCall.gbm_bo_destroy bo.ptr] ∧
    countBoDestroyOn (Surface.release_buffer s bo) bo.ptr = 1 := by
  obtain ⟨-, rfl⟩ := bo_new_shape o d w h f u bo hbo
  refine ⟨rfl, ?_⟩
  simp [Surface.release_buffer, BufferObject.drop, countBoDestroyOn]

/-- C9 witness: releasing the owned buffer with handle 42 to the surface
with handle 3 issues the release call and then a destroy on handle 42. -/
theorem c9_witness :
    Surface.release_buffer ⟨3⟩ ⟨42, true⟩
      = [NativeCall.gbm_surface_release_buffer 3 42, NativeCall.gbm_bo_destroy 42] ∧
    countBoDestroyOn (Surface.release_buffer ⟨3⟩ ⟨42, true⟩) 42 = 1 :=
  c9_release_owned_destroys testOracle ⟨1⟩ ⟨3⟩ 1920 1080 0 0 ⟨42, true⟩ (by decide)

/-- C10: every successfully constructed wrapper holds a non-null native
handle (each constructor returns none on the null handle and the stored
pointer is never mutated), and each disposal passes exactly that stored
non-null handle to the native destroy. -/
theorem c10_live_handles_nonnull (o : NativeOracle) (fd : Int) (dc : Device) (sc : Surface)
    (w h f u : Nat) (d : Device) (s : Surface) (b1 b2 : BufferObject)
    (h1 : (Device.from_fd o fd).1 = some d)
    (h2 : (Surface.new o dc w h f u).1 = some s)
    (h3 : (BufferObject.new o dc w h f u).1 = some b1)
    (h4 : (Surface.lock_front_buffer o sc).1 = some b2) :
    d.ptr ≠ 0 ∧ s.ptr ≠ 0 ∧ b1.ptr ≠ 0 ∧ b2.ptr ≠ 0 ∧
    Device.drop d = [NativeCall.gbm_device_destroy d.ptr] ∧
    Surface.drop s = [NativeCall.gbm_surface_destroy s.ptr] ∧
    BufferObject.drop b1 = [NativeCall.gbm_bo_destroy b1.ptr] := by
  obtain ⟨hne1, rfl⟩ := from_fd_shape o fd d h1
  obtain ⟨hne2, rfl⟩ := surface_new_shape o dc w h f u s h2
  obtain ⟨hne3, rfl⟩ := bo_new_shape o dc w h f u b1 h3
  obtain ⟨hne4, rfl⟩ := lock_shape o sc b2 h4
  exact ⟨hne1, hne2, hne3, hne4, rfl, rfl, rfl⟩

/-- C10 witness: the wrappers produced by `testOracle` hold the non-null
handles 1, 3, 42 and 9, and their disposals target exactly those handles. -/
theorem c10_witness :
    ((⟨1⟩ : Device).ptr ≠ 0) ∧ ((⟨3⟩ : Surface).ptr ≠ 0) ∧
    ((⟨42, true⟩ : BufferObject).ptr ≠ 0) ∧ ((⟨9, false⟩ : BufferObject).ptr ≠ 0) ∧
    Device.drop ⟨1⟩ = [NativeCall.gbm_device_destroy 1] ∧
    Surface.drop ⟨3⟩ = [NativeCall.gbm_surface_destroy 3] ∧
    BufferObject.drop ⟨42, true⟩ = [NativeCall.gbm_bo_destroy 42] :=
  c10_live_handles_nonnull testOracle 7 ⟨1⟩ ⟨3⟩ 1920 1080 0 0 ⟨1⟩ ⟨3⟩ ⟨42, true⟩ ⟨9, false⟩
    (by decide) (by decide) (by decide) (by decide)

end GbmRs
